import Mathlib

/-
Verification development for the mountain-pass submission service
(`app/models.py`, `app/database.py`, `app/main.py`).

The Python source is shallowly embedded:
* the PostgreSQL tables become explicit lists of rows in a `DBState`;
* external nondeterminism (connection success, engine faults on each
  insert, the behaviour of the Python builtins `float` and `int` on
  strings) is captured by an `Env` oracle threaded through the model;
* Python exceptions are modelled as `Option`/explicit control flow;
* Python truthiness of the extracted string fields is modelled by
  `truthy` (`None` and `""` are falsy);
* `base64.b64decode` (default, non-strict mode) and `base64.b64encode`
  are modelled bit-faithfully on lists of byte values.
-/

namespace MountainPasses

/-! ## Base64, as implemented by CPython `binascii` in non-strict mode -/

/-- The standard base64 alphabet, in order: the 26 capitals, the 26
small letters, the 10 digits, then `'+'` and `'/'`. -/
def b64Alphabet : List Char :=
  (List.range 26).map (fun i => Char.ofNat (65 + i)) ++
  (List.range 26).map (fun i => Char.ofNat (97 + i)) ++
  (List.range 10).map (fun i => Char.ofNat (48 + i)) ++ ['+', '/']

/-- The alphabet character for a 6-bit value. -/
def encChar (n : Nat) : Char := b64Alphabet.getD n '?'

/-- Reverse alphabet lookup (`table_a2b_base64`): `none` for characters
that are not base64 digits (they are skipped in non-strict mode). -/
def decTable (c : Char) : Option Nat := b64Alphabet.findIdx? (· = c)

/-- `binascii.b2a_base64` / `base64.b64encode` on a list of byte values. -/
def b64encodeBytes : List Nat → List Char
  | b1 :: b2 :: b3 :: rest =>
      encChar (b1 / 4) :: encChar (b1 % 4 * 16 + b2 / 16) ::
      encChar (b2 % 16 * 4 + b3 / 64) :: encChar (b3 % 64) :: b64encodeBytes rest
  | [b1, b2] => [encChar (b1 / 4), encChar (b1 % 4 * 16 + b2 / 16), encChar (b2 % 16 * 4), '=']
  | [b1] => [encChar (b1 / 4), encChar (b1 % 4 * 16), '=', '=']
  | [] => []

/-- `base64.b64encode`, with the resulting ASCII bytes read back as text. -/
def b64encode (b : List Nat) : String := ⟨b64encodeBytes b⟩

/-- The character loop of CPython `binascii.a2b_base64` in non-strict
(default) mode.  State: quad position, pending bits, consecutive pad
count, accumulated output (reversed).  Characters outside the alphabet
are skipped; `'='` at quad position ≥ 2 counts towards padding and
terminates the quad once `quad_pos + pads ≥ 4`; a quad position other
than 0 at the end of input is a padding error. -/
def a2b : List Char → Nat → Nat → Nat → List Nat → Option (List Nat)
  | [], qp, _, _, acc => if qp = 0 then some acc.reverse else none
  | c :: cs, qp, left, pads, acc =>
    if c = '=' then
      if 2 ≤ qp ∧ 4 ≤ qp + (pads + 1) then some acc.reverse
      else if 2 ≤ qp then a2b cs qp left (pads + 1) acc
      else a2b cs qp left pads acc
    else
      match decTable c with
      | none => a2b cs qp left pads acc
      | some v =>
        if qp = 0 then a2b cs 1 v 0 acc
        else if qp = 1 then a2b cs 2 (v % 16) 0 ((left * 4 + v / 16) :: acc)
        else if qp = 2 then a2b cs 3 (v % 4) 0 ((left * 16 + v / 4) :: acc)
        else a2b cs 0 0 0 ((left * 64 + v) :: acc)

/-- `base64.b64decode` on a Python `str`: the string must be pure ASCII
(otherwise `ValueError`), then the non-strict `a2b_base64` loop runs.
`none` models the raised exception. -/
def b64decode (s : String) : Option (List Nat) :=
  if s.data.all (fun c => c.toNat ≤ 127) then a2b s.data 0 0 0 [] else none

/-! ## Data model: the four tables of the schema -/

/-- A row of the `users` table (`INSERT INTO users ... RETURNING id`,
with a uniqueness constraint on `email`). -/
structure UserRow where
  id : Nat
  email : String
  phone : String
  fam : String
  name : String
  otc : String
deriving DecidableEq

/-- A row of the `passes` table.  `status` is set by the SQL literal
`'new'` in `create_pass` and nothing else writes it. -/
structure PassRow where
  id : Nat
  beauty_title : String
  title : String
  other_titles : String
  connect : String
  add_time : String
  user_id : Nat
  latitude : Rat
  longitude : Rat
  height : Int
  status : String
deriving DecidableEq

/-- A row of the `difficulty_levels` table. -/
structure DifficultyRow where
  pass_id : Nat
  winter : String
  spring : String
  summer : String
  autumn : String
deriving DecidableEq

/-- A row of the `images` table; `data` holds the decoded bytes. -/
structure ImageRow where
  pass_id : Nat
  title : String
  data : List Nat
deriving DecidableEq

/-- The visible database state: the four tables plus the identity
sequences backing `users.id` and `passes.id` (PostgreSQL serials,
starting at 1 on a fresh database). -/
structure DBState where
  users : List UserRow
  passes : List PassRow
  difficulty_levels : List DifficultyRow
  images : List ImageRow
  nextUserId : Nat
  nextPassId : Nat
deriving DecidableEq

/-- One image entry of the submission payload (`ImageData` in
`models.py`); `none` models a missing dictionary key. -/
structure ImageData where
  title : Option String
  data : Option String
deriving DecidableEq

/-- The submission payload as `submit_pass_data` reads it with `.get`:
each leaf is `none` when the key is absent.  Nested sub-objects
(`user`, `coords`, `level`) are flattened; a missing sub-object is the
same as all of its fields missing (`.get(..., {})`). -/
structure Submission where
  user_email : Option String
  user_phone : Option String
  user_fam : Option String
  user_name : Option String
  user_otc : Option String
  beauty_title : Option String
  title : Option String
  other_titles : Option String
  connect : Option String
  add_time : Option String
  latitude : Option String
  longitude : Option String
  height : Option String
  level_winter : Option String
  level_spring : Option String
  level_summer : Option String
  level_autumn : Option String
  images : List ImageData

/-- The external world as seen by one run of `submit_pass_data`:
whether `psycopg2.connect` succeeds, which inserts the engine fails
(beyond the deterministic email-uniqueness violation), whether the
follow-up `SELECT` after a duplicate-email insert returns a row, and
the behaviour of the Python builtins `float`/`int` on the coordinate
strings (`none` models a raised `ValueError`). -/
structure Env where
  connectOk : Bool
  userInsertError : Bool
  userLookupEmpty : Bool
  passInsertFault : Bool
  dlInsertFault : Bool
  imageInsertFault : Nat → Bool
  parseFloat : String → Option Rat
  parseInt : String → Option Int

/-- Python truthiness of an optional string: `None` and `""` are falsy. -/
def truthy (o : Option String) : Bool := decide (o.getD "" ≠ "")

/-- The connection object of the `Database` instance: `none` when
`self.connection is None`, otherwise whether it is open; `releases`
counts executed `connection.close()` calls. -/
structure ConnState where
  conn : Option Bool
  releases : Nat
deriving DecidableEq

/-- `Database.disconnect`: `if self.connection: self.connection.close()`. -/
def disconnect (c : ConnState) : ConnState :=
  match c.conn with
  | none => c
  | some _ => { conn := some false, releases := c.releases + 1 }

/-! ## The write operations of `database.py` -/

/-- `Database.create_user`: try the insert; on the unique-email
`IntegrityError`, roll back and return the id found by
`SELECT id FROM users WHERE email = %s` (or `None` when that returns
no row); on any other engine error return `None`. -/
def create_user (env : Env) (s : DBState) (email phone fam name otc : String) :
    Option Nat × DBState :=
  if s.users.any (fun u => u.email == email) then
    (match (if env.userLookupEmpty then none
            else s.users.find? (fun u => u.email == email)) with
     | some u => some u.id
     | none => none, s)
  else if env.userInsertError then (none, s)
  else (some s.nextUserId,
        { s with users := s.users ++ [⟨s.nextUserId, email, phone, fam, name, otc⟩],
                 nextUserId := s.nextUserId + 1 })

/-- `Database.create_pass`: insert with `status` fixed to `'new'`,
returning the fresh id, or `None` on an engine error. -/
def create_pass (env : Env) (s : DBState)
    (beauty_title title other_titles cn add_time : String) (user_id : Nat)
    (latitude longitude : Rat) (height : Int) : Option Nat × DBState :=
  if env.passInsertFault then (none, s)
  else (some s.nextPassId,
        { s with passes := s.passes ++
            [⟨s.nextPassId, beauty_title, title, other_titles, cn, add_time,
              user_id, latitude, longitude, height, "new"⟩],
                 nextPassId := s.nextPassId + 1 })

/-- `Database.create_difficulty_level` via `execute_query`: `False` and
rollback on an engine error, `True` and the inserted row otherwise. -/
def create_difficulty_level (env : Env) (s : DBState) (pass_id : Nat)
    (winter spring summer autumn : String) : Bool × DBState :=
  if env.dlInsertFault then (false, s)
  else (true, { s with difficulty_levels :=
        s.difficulty_levels ++ [⟨pass_id, winter, spring, summer, autumn⟩] })

/-- `MAX_IMAGE_SIZE = 5 * 1024 * 1024` from `database.py`. -/
def MAX_IMAGE_SIZE : Nat := 5 * 1024 * 1024

/-- One iteration of the image loop of `submit_pass_data`, as the row it
stores (`none` when the image is skipped): decode the base64 data
(a decode exception skips the image), skip when the decoded size
exceeds `MAX_IMAGE_SIZE` (strict comparison), and let `create_image`
absorb its own engine fault (`execute_query` returns `False`, no row). -/
def storeImage (env : Env) (pass_id i : Nat) (img : ImageData) : Option ImageRow :=
  match b64decode (img.data.getD "") with
  | none => none
  | some bytes =>
    if MAX_IMAGE_SIZE < bytes.length then none
    else if env.imageInsertFault i then none
    else some ⟨pass_id, img.title.getD "", bytes⟩

/-- The image loop (`for image in images:`), threading the table state. -/
def processImages (env : Env) (pass_id : Nat) : Nat → List ImageData → DBState → DBState
  | _, [], s => s
  | i, img :: rest, s =>
    processImages env pass_id (i + 1) rest
      (match storeImage env pass_id i img with
       | none => s
       | some row => { s with images := s.images ++ [row] })

/-- The rows the image loop appends, starting at loop index `i`. -/
def imagesStored (env : Env) (pass_id : Nat) : Nat → List ImageData → List ImageRow
  | _, [] => []
  | i, img :: rest =>
    (storeImage env pass_id i img).toList ++ imagesStored env pass_id (i + 1) rest

/-! ## The orchestrator -/

/-- `float(coords.get('latitude', 0))`: a missing key defaults to the
number 0; a present string goes through the `float` builtin. -/
def parseCoord (env : Env) (o : Option String) : Option Rat :=
  match o with
  | none => some 0
  | some str => env.parseFloat str

/-- `int(coords.get('height', 0))` similarly. -/
def parseHeight (env : Env) (o : Option String) : Option Int :=
  match o with
  | none => some 0
  | some str => env.parseInt str

/-- The status/message/id triple of a response. -/
structure Outcome where
  status : Nat
  message : Option String
  id : Option Nat
deriving DecidableEq

/-- The body of the `try:` block of `submit_pass_data` (everything
between a successful `connect` and the `finally:`).  The first
component is `none` when an exception escapes the step sequence (a
coordinate parse fault) and is converted by the enclosing
`except Exception` into the generic 500 outcome. -/
def submitBody (env : Env) (d : Submission) (s : DBState) : Option Outcome × DBState :=
  if !(truthy d.user_email && truthy d.user_phone && truthy d.user_fam &&
       truthy d.user_name && truthy d.user_otc) then
    (some ⟨400, some "Не хватает полей в данных пользователя", none⟩, s)
  else
    match create_user env s (d.user_email.getD "") (d.user_phone.getD "")
        (d.user_fam.getD "") (d.user_name.getD "") (d.user_otc.getD "") with
    | (none, s1) => (some ⟨500, some "Ошибка при создании пользователя", none⟩, s1)
    | (some uid, s1) =>
      if uid = 0 then (some ⟨500, some "Ошибка при создании пользователя", none⟩, s1)
      else
        match parseCoord env d.latitude, parseCoord env d.longitude,
            parseHeight env d.height with
        | some lat, some lon, some hgt =>
          if !(truthy d.title && truthy d.add_time) then
            (some ⟨400, some "Не хватает обязательных полей", none⟩, s1)
          else
            match create_pass env s1 (d.beauty_title.getD "") (d.title.getD "")
                (d.other_titles.getD "") (d.connect.getD "") (d.add_time.getD "")
                uid lat lon hgt with
            | (none, s2) => (some ⟨500, some "Ошибка при создании перевала", none⟩, s2)
            | (some pid, s2) =>
              if pid = 0 then (some ⟨500, some "Ошибка при создании перевала", none⟩, s2)
              else
                (some ⟨200, none, some pid⟩,
                 processImages env pid 0 d.images
                   (create_difficulty_level env s2 pid (d.level_winter.getD "")
                     (d.level_spring.getD "") (d.level_summer.getD "")
                     (d.level_autumn.getD "")).2)
        | _, _, _ => (none, s1)

/-- The full result of one `submit_pass_data` call: the returned triple
plus the database tables and the connection object afterwards. -/
structure SubmitResult where
  status : Nat
  message : Option String
  id : Option Nat
  db : DBState
  conn : ConnState
deriving DecidableEq

/-- `Database.submit_pass_data`.  A failed `connect` returns before the
`try`, so the `finally: self.disconnect()` does not run on that path;
on every other path it runs exactly once. -/
def submit_pass_data (env : Env) (d : Submission) (s : DBState) (c : ConnState) :
    SubmitResult :=
  if env.connectOk then
    let r := submitBody env d s
    let out := r.1.getD ⟨500, some "Ошибка при обработке данных", none⟩
    ⟨out.status, out.message, out.id, r.2, disconnect ⟨some true, c.releases⟩⟩
  else
    ⟨500, some "Ошибка подключения к базе данных", none, s, c⟩

/-- The response envelope of `models.SubmitPassResponse`. -/
structure SubmitPassResponse where
  status : Nat
  message : Option String
  id : Option Nat
deriving DecidableEq

/-- The `POST /submitData` handler of `main.py`: it forwards the triple
unchanged.  (Its own `except Exception` arm cannot fire in the model:
the embedded `submit_pass_data` is total, matching the source where the
orchestrator already converts every exception of its own body.) -/
def submit_data (env : Env) (d : Submission) (s : DBState) (c : ConnState) :
    SubmitPassResponse :=
  let r := submit_pass_data env d s c
  ⟨r.status, r.message, r.id⟩

/-! ## Concrete sample inputs, used to instantiate the theorems -/

/-- A fault-free external world. -/
def envOk : Env :=
  ⟨true, false, false, false, false, fun _ => false, fun _ => some 0, fun _ => some 0⟩

/-- `psycopg2.connect` raises. -/
def envNoConn : Env := { envOk with connectOk := false }

/-- The follow-up lookup after a duplicate-email insert finds no row. -/
def envLookupEmpty : Env := { envOk with userLookupEmpty := true }

/-- A fresh database: empty tables, both serials at 1. -/
def dbEmpty : DBState := ⟨[], [], [], [], 1, 1⟩

/-- A database already holding the sample user. -/
def dbWithUser : DBState :=
  { dbEmpty with
      users := [⟨1, "qwerty@mail.ru", "+7 555 55 55", "Пупкин", "Василий", "Иванович"⟩],
      nextUserId := 2 }

/-- A fresh `Database()` object: `self.connection = None`. -/
def connNone : ConnState := ⟨none, 0⟩

/-- A complete valid payload (the documented example), with no images. -/
def subOk : Submission :=
  { user_email := some "qwerty@mail.ru", user_phone := some "+7 555 55 55",
    user_fam := some "Пупкин", user_name := some "Василий", user_otc := some "Иванович",
    beauty_title := some "пер. ", title := some "Пхия", other_titles := some "Триев",
    connect := some "", add_time := some "2021-09-22 13:18:13",
    latitude := none, longitude := none, height := none,
    level_winter := none, level_spring := some "1А", level_summer := some "1А",
    level_autumn := none, images := [] }

/-- The sample payload with the email missing. -/
def subNoEmail : Submission := { subOk with user_email := none }

/-- An image whose base64 data decodes to `[1, 2, 3]`. -/
def imgGood : ImageData := ⟨some "Седловина", some "AQID"⟩

/-- An image whose base64 data raises in `b64decode` (a lone digit is a
padding error). -/
def imgBad : ImageData := ⟨some "Подъём", some "A"⟩

/-- The sample payload with a faulty image between two good ones. -/
def subWithImages : Submission := { subOk with images := [imgGood, imgBad, imgGood] }

/-- A payload whose decoded image is exactly `MAX_IMAGE_SIZE` bytes. -/
def bigBytes : List Nat := List.replicate MAX_IMAGE_SIZE 0

/-- The boundary-size image, canonically encoded. -/
def imgBoundary : ImageData := ⟨some "Седловина", some (b64encode bigBytes)⟩

/-! ## Base64 lemmas -/

theorem decTable_encChar : ∀ v : Nat, v < 64 → decTable (encChar v) = some v := by decide

theorem encChar_ne_pad : ∀ v : Nat, v < 64 → encChar v ≠ '=' := by decide

theorem encChar_ascii : ∀ v : Nat, v < 64 → (encChar v).toNat ≤ 127 := by decide

/-- `a2b` step on a base64 digit at quad position 0. -/
theorem a2b_step0 (v : Nat) (hv : v < 64) (cs : List Char) (left pads : Nat)
    (acc : List Nat) :
    a2b (encChar v :: cs) 0 left pads acc = a2b cs 1 v 0 acc := by
  rw [a2b, if_neg (encChar_ne_pad v hv), decTable_encChar v hv]
  rfl

/-- `a2b` step on a base64 digit at quad position 1. -/
theorem a2b_step1 (v : Nat) (hv : v < 64) (cs : List Char) (left pads : Nat)
    (acc : List Nat) :
    a2b (encChar v :: cs) 1 left pads acc =
      a2b cs 2 (v % 16) 0 ((left * 4 + v / 16) :: acc) := by
  rw [a2b, if_neg (encChar_ne_pad v hv), decTable_encChar v hv]
  norm_num

/-- `a2b` step on a base64 digit at quad position 2. -/
theorem a2b_step2 (v : Nat) (hv : v < 64) (cs : List Char) (left pads : Nat)
    (acc : List Nat) :
    a2b (encChar v :: cs) 2 left pads acc =
      a2b cs 3 (v % 4) 0 ((left * 16 + v / 4) :: acc) := by
  rw [a2b, if_neg (encChar_ne_pad v hv), decTable_encChar v hv]
  norm_num

/-- `a2b` step on a base64 digit at quad position 3. -/
theorem a2b_step3 (v : Nat) (hv : v < 64) (cs : List Char) (left pads : Nat)
    (acc : List Nat) :
    a2b (encChar v :: cs) 3 left pads acc =
      a2b cs 0 0 0 ((left * 64 + v) :: acc) := by
  rw [a2b, if_neg (encChar_ne_pad v hv), decTable_encChar v hv]
  norm_num

/-- First `'='` after two data characters: not yet enough padding, count it. -/
theorem a2b_pad2_first (cs : List Char) (left : Nat) (acc : List Nat) :
    a2b ('=' :: cs) 2 left 0 acc = a2b cs 2 left 1 acc := by
  rw [a2b, if_pos rfl]
  norm_num

/-- Second `'='` after two data characters: quad complete, decoding stops. -/
theorem a2b_pad2_second (cs : List Char) (left : Nat) (acc : List Nat) :
    a2b ('=' :: cs) 2 left 1 acc = some acc.reverse := by
  rw [a2b, if_pos rfl]
  norm_num

/-- A `'='` after three data characters: quad complete, decoding stops. -/
theorem a2b_pad3 (cs : List Char) (left pads : Nat) (acc : List Nat) :
    a2b ('=' :: cs) 3 left pads acc = some acc.reverse := by
  rw [a2b, if_pos rfl]
  rw [if_pos (by omega)]

/-- Decoding an encoded byte list recovers exactly those bytes,
whatever the incoming pad counter and accumulator. -/
theorem a2b_encode : ∀ b : List Nat, (∀ x ∈ b, x < 256) →
    ∀ pads acc, a2b (b64encodeBytes b) 0 0 pads acc = some (acc.reverse ++ b)
  | [], _, pads, acc => by simp [b64encodeBytes, a2b]
  | [b1], hb, pads, acc => by
    have h1 : b1 < 256 := hb b1 (by simp)
    rw [b64encodeBytes, a2b_step0 _ (by omega), a2b_step1 _ (by omega),
      a2b_pad2_first, a2b_pad2_second]
    have e1 : b1 / 4 * 4 + b1 % 4 * 16 / 16 = b1 := by omega
    rw [e1]
    simp
  | [b1, b2], hb, pads, acc => by
    have h1 : b1 < 256 := hb b1 (by simp)
    have h2 : b2 < 256 := hb b2 (by simp)
    rw [b64encodeBytes, a2b_step0 _ (by omega), a2b_step1 _ (by omega),
      a2b_step2 _ (by omega), a2b_pad3]
    have e1 : b1 / 4 * 4 + (b1 % 4 * 16 + b2 / 16) / 16 = b1 := by omega
    have e2 : (b1 % 4 * 16 + b2 / 16) % 16 * 16 + b2 % 16 * 4 / 4 = b2 := by omega
    rw [e1, e2]
    simp
  | b1 :: b2 :: b3 :: tl, hb, pads, acc => by
    have h1 : b1 < 256 := hb b1 (by simp)
    have h2 : b2 < 256 := hb b2 (by simp)
    have h3 : b3 < 256 := hb b3 (by simp)
    rw [b64encodeBytes, a2b_step0 _ (by omega), a2b_step1 _ (by omega),
      a2b_step2 _ (by omega), a2b_step3 _ (by omega),
      a2b_encode tl (fun x hx => hb x (by simp [hx])) 0]
    have e1 : b1 / 4 * 4 + (b1 % 4 * 16 + b2 / 16) / 16 = b1 := by omega
    have e2 : (b1 % 4 * 16 + b2 / 16) % 16 * 16 + (b2 % 16 * 4 + b3 / 64) / 4 = b2 := by
      omega
    have e3 : (b2 % 16 * 4 + b3 / 64) % 4 * 64 + b3 % 64 = b3 := by omega
    rw [e1, e2, e3]
    simp

/-- Every character emitted by the encoder is ASCII. -/
theorem b64encodeBytes_ascii : ∀ b : List Nat, (∀ x ∈ b, x < 256) →
    ∀ c ∈ b64encodeBytes b, c.toNat ≤ 127
  | [], _, c, hc => by simp [b64encodeBytes] at hc
  | [b1], hb, c, hc => by
    have h1 : b1 < 256 := hb b1 (by simp)
    simp only [b64encodeBytes, List.mem_cons, List.not_mem_nil, or_false] at hc
    rcases hc with rfl | rfl | rfl | rfl
    · exact encChar_ascii _ (by omega)
    · exact encChar_ascii _ (by omega)
    · decide
    · decide
  | [b1, b2], hb, c, hc => by
    have h1 : b1 < 256 := hb b1 (by simp)
    have h2 : b2 < 256 := hb b2 (by simp)
    simp only [b64encodeBytes, List.mem_cons, List.not_mem_nil, or_false] at hc
    rcases hc with rfl | rfl | rfl | rfl
    · exact encChar_ascii _ (by omega)
    · exact encChar_ascii _ (by omega)
    · exact encChar_ascii _ (by omega)
    · decide
  | b1 :: b2 :: b3 :: tl, hb, c, hc => by
    have h1 : b1 < 256 := hb b1 (by simp)
    have h2 : b2 < 256 := hb b2 (by simp)
    have h3 : b3 < 256 := hb b3 (by simp)
    simp only [b64encodeBytes, List.mem_cons] at hc
    rcases hc with rfl | rfl | rfl | rfl | hc
    · exact encChar_ascii _ (by omega)
    · exact encChar_ascii _ (by omega)
    · exact encChar_ascii _ (by omega)
    · exact encChar_ascii _ (by omega)
    · exact b64encodeBytes_ascii tl (fun x hx => hb x (by simp [hx])) c hc

/-- Python round trip: decoding a canonical base64 encoding is lossless. -/
theorem b64decode_b64encode (b : List Nat) (hb : ∀ x ∈ b, x < 256) :
    b64decode (b64encode b) = some b := by
  have hascii : (b64encodeBytes b).all (fun c => c.toNat ≤ 127) = true := by
    rw [List.all_eq_true]
    intro c hc
    simpa using b64encodeBytes_ascii b hb c hc
  show (if (b64encodeBytes b).all (fun c => c.toNat ≤ 127) then
    a2b (b64encodeBytes b) 0 0 0 [] else none) = some b
  rw [if_pos hascii, a2b_encode b hb 0 []]
  simp

/-! ## Structure lemmas about the model -/

/-- The image loop only appends to the `images` table, appending exactly
the rows described by `imagesStored`. -/
theorem processImages_eq (env : Env) (pid : Nat) :
    ∀ (l : List ImageData) (i : Nat) (s : DBState),
    processImages env pid i l s = { s with images := s.images ++ imagesStored env pid i l }
  | [], i, s => by simp [processImages, imagesStored]
  | img :: rest, i, s => by
    rw [processImages, imagesStored]
    rcases hst : storeImage env pid i img with _ | row
    · rw [processImages_eq env pid rest (i + 1) s]
      simp
    · rw [processImages_eq env pid rest (i + 1) _]
      simp

/-- `imagesStored` distributes over list append, shifting the loop index. -/
theorem imagesStored_append (env : Env) (pid : Nat) :
    ∀ (l1 l2 : List ImageData) (i : Nat),
    imagesStored env pid i (l1 ++ l2) =
      imagesStored env pid i l1 ++ imagesStored env pid (i + l1.length) l2
  | [], l2, i => by simp [imagesStored]
  | img :: rest, l2, i => by
    rw [List.cons_append, imagesStored, imagesStored,
      imagesStored_append env pid rest l2 (i + 1),
      show i + (img :: rest).length = (i + 1) + rest.length by simp; omega]
    simp

/-- A stored row of the loop is among the appended rows. -/
theorem storeImage_mem_imagesStored (env : Env) (pid : Nat) :
    ∀ (l : List ImageData) (k j : Nat) (hj : j < l.length) (row : ImageRow),
    storeImage env pid (k + j) (l.get ⟨j, hj⟩) = some row →
    row ∈ imagesStored env pid k l
  | [], k, j, hj, row => by simp at hj
  | img :: rest, k, 0, hj, row => fun h => by
    rw [imagesStored]
    rw [show k + 0 = k by omega] at h
    simp only [List.get] at h
    rw [h]
    simp
  | img :: rest, k, j + 1, hj, row => fun h => by
    rw [imagesStored]
    refine List.mem_append_right _
      (storeImage_mem_imagesStored env pid rest (k + 1) j (by simpa using hj) row ?_)
    rw [show k + 1 + j = k + (j + 1) by omega]
    simpa using h

/-- `create_user` succeeds under a fault-free oracle and a well-formed
identity sequence, touching only the `users` table. -/
theorem create_user_ok (env : Env) (s : DBState) (email phone fam name otc : String)
    (hui : env.userInsertError = false) (hul : env.userLookupEmpty = false)
    (hn1 : 1 ≤ s.nextUserId) (hids : ∀ u ∈ s.users, 1 ≤ u.id) :
    ∃ uid s1, create_user env s email phone fam name otc = (some uid, s1) ∧
      1 ≤ uid ∧ s1.passes = s.passes ∧ s1.images = s.images ∧
      s1.difficulty_levels = s.difficulty_levels ∧ s1.nextPassId = s.nextPassId := by
  rw [create_user]
  by_cases hdup : s.users.any (fun u => u.email == email) = true
  · rw [if_pos hdup, hul]
    obtain ⟨u, hu, hpu⟩ := List.any_eq_true.mp hdup
    have hfind : (s.users.find? (fun u => u.email == email)).isSome = true :=
      List.find?_isSome.mpr ⟨u, hu, hpu⟩
    obtain ⟨w, hw⟩ := Option.isSome_iff_exists.mp hfind
    rw [if_neg (by simp), hw]
    exact ⟨w.id, s, rfl, hids w (List.mem_of_find?_eq_some hw), rfl, rfl, rfl, rfl⟩
  · rw [if_neg hdup, if_neg (by simp [hui])]
    exact ⟨s.nextUserId, _, rfl, hn1, rfl, rfl, rfl, rfl⟩

/-- Exhaustive shape of the non-exceptional outcomes of the `try:` body:
200 with an id and no message, or 400/500 with a message and no id. -/
theorem submitBody_cases (env : Env) (d : Submission) (s : DBState) (out : Outcome)
    (s' : DBState) (h : submitBody env d s = (some out, s')) :
    (out.status = 200 ∧ out.message = none ∧ out.id.isSome = true) ∨
    ((out.status = 400 ∨ out.status = 500) ∧ out.message.isSome = true ∧ out.id = none) := by
  rw [submitBody] at h
  repeat' split at h
  all_goals injection h with h1 h2
  all_goals try exact Option.noConfusion h1
  all_goals injection h1 with h1
  all_goals subst h1
  all_goals simp

/-- Symbolic run of `submit_pass_data` on a submission that passes every
validation under an oracle that fails nothing it cannot absorb. -/
theorem submit_success_core (env : Env) (d : Submission) (s : DBState) (c : ConnState)
    (hconn : env.connectOk = true)
    (he : truthy d.user_email = true) (hp : truthy d.user_phone = true)
    (hf : truthy d.user_fam = true) (hn : truthy d.user_name = true)
    (ho : truthy d.user_otc = true)
    (hui : env.userInsertError = false) (hul : env.userLookupEmpty = false)
    (hlat : (parseCoord env d.latitude).isSome = true)
    (hlon : (parseCoord env d.longitude).isSome = true)
    (hhgt : (parseHeight env d.height).isSome = true)
    (ht : truthy d.title = true) (hat : truthy d.add_time = true)
    (hpf : env.passInsertFault = false)
    (hn1 : 1 ≤ s.nextUserId) (hn2 : 1 ≤ s.nextPassId)
    (hids : ∀ u ∈ s.users, 1 ≤ u.id) :
    ∃ uid s1 lat lon hgt,
      create_user env s (d.user_email.getD "") (d.user_phone.getD "")
          (d.user_fam.getD "") (d.user_name.getD "") (d.user_otc.getD "") =
        (some uid, s1) ∧
      1 ≤ uid ∧ s1.passes = s.passes ∧ s1.images = s.images ∧
      s1.difficulty_levels = s.difficulty_levels ∧ s1.nextPassId = s.nextPassId ∧
      parseCoord env d.latitude = some lat ∧ parseCoord env d.longitude = some lon ∧
      parseHeight env d.height = some hgt ∧
      submit_pass_data env d s c =
        ⟨200, none, some s.nextPassId,
         processImages env s.nextPassId 0 d.images
           (create_difficulty_level env
             { s1 with
                 passes := s1.passes ++
                   [⟨s.nextPassId, d.beauty_title.getD "", d.title.getD "",
                     d.other_titles.getD "", d.connect.getD "", d.add_time.getD "",
                     uid, lat, lon, hgt, "new"⟩],
                 nextPassId := s.nextPassId + 1 }
             s.nextPassId (d.level_winter.getD "") (d.level_spring.getD "")
             (d.level_summer.getD "") (d.level_autumn.getD "")).2,
         ⟨some false, c.releases + 1⟩⟩ := by
  obtain ⟨uid, s1, hcu, huid, hpasses, himages, hdl, hnext⟩ :=
    create_user_ok env s (d.user_email.getD "") (d.user_phone.getD "")
      (d.user_fam.getD "") (d.user_name.getD "") (d.user_otc.getD "") hui hul hn1 hids
  obtain ⟨lat, hl⟩ := Option.isSome_iff_exists.mp hlat
  obtain ⟨lon, hlo⟩ := Option.isSome_iff_exists.mp hlon
  obtain ⟨hgt, hhg⟩ := Option.isSome_iff_exists.mp hhgt
  have hbody : submitBody env d s =
      (some ⟨200, none, some s.nextPassId⟩,
       processImages env s.nextPassId 0 d.images
         (create_difficulty_level env
           { s1 with
               passes := s1.passes ++
                 [⟨s.nextPassId, d.beauty_title.getD "", d.title.getD "",
                   d.other_titles.getD "", d.connect.getD "", d.add_time.getD "",
                   uid, lat, lon, hgt, "new"⟩],
               nextPassId := s.nextPassId + 1 }
           s.nextPassId (d.level_winter.getD "") (d.level_spring.getD "")
           (d.level_summer.getD "") (d.level_autumn.getD "")).2) := by
    rw [submitBody, he, hp, hf, hn, ho]
    norm_num
    rw [hcu]
    dsimp only
    rw [if_neg (by omega : ¬ uid = 0), hl, hlo, hhg]
    dsimp only
    rw [ht, hat]
    norm_num
    rw [create_pass, hpf]
    norm_num
    rw [if_neg (by omega : ¬ s1.nextPassId = 0), hnext]
  rw [submit_pass_data, if_pos hconn, hbody]
  exact ⟨uid, s1, lat, lon, hgt, hcu, huid, hpasses, himages, hdl, hnext, hl, hlo, hhg, rfl⟩

/-- The difficulty-level insert touches only its own table. -/
theorem create_difficulty_level_passes (env : Env) (s : DBState) (pid : Nat)
    (w sp su au : String) :
    (create_difficulty_level env s pid w sp su au).2.passes = s.passes := by
  rw [create_difficulty_level]
  split <;> rfl

theorem create_difficulty_level_images (env : Env) (s : DBState) (pid : Nat)
    (w sp su au : String) :
    (create_difficulty_level env s pid w sp su au).2.images = s.images := by
  rw [create_difficulty_level]
  split <;> rfl

/-- `submit_pass_data` with the `finally:` composition written out. -/
theorem submit_pass_data_eq (env : Env) (d : Submission) (s : DBState) (c : ConnState) :
    submit_pass_data env d s c =
      if env.connectOk then
        ⟨((submitBody env d s).1.getD ⟨500, some "Ошибка при обработке данных", none⟩).status,
         ((submitBody env d s).1.getD ⟨500, some "Ошибка при обработке данных", none⟩).message,
         ((submitBody env d s).1.getD ⟨500, some "Ошибка при обработке данных", none⟩).id,
         (submitBody env d s).2, ⟨some false, c.releases + 1⟩⟩
      else ⟨500, some "Ошибка подключения к базе данных", none, s, c⟩ := by
  rw [submit_pass_data]
  split <;> rfl

/-- Every `submit_pass_data` result is a 200 with id and no message, or
a 400/500 with a message and no id. -/
theorem submit_triple_cases (env : Env) (d : Submission) (s : DBState) (c : ConnState) :
    ((submit_pass_data env d s c).status = 200 ∧
     (submit_pass_data env d s c).message = none ∧
     (submit_pass_data env d s c).id.isSome = true) ∨
    (((submit_pass_data env d s c).status = 400 ∨
      (submit_pass_data env d s c).status = 500) ∧
     (submit_pass_data env d s c).message.isSome = true ∧
     (submit_pass_data env d s c).id = none) := by
  rw [submit_pass_data_eq]
  by_cases hc : env.connectOk = true
  · rw [if_pos hc]
    rcases hb : submitBody env d s with ⟨res, s2⟩
    rcases res with _ | out
    · right
      simp
    · rcases submitBody_cases env d s out s2 hb with ⟨h1, h2, h3⟩ | ⟨h1, h2, h3⟩
      · exact Or.inl (by simp [h1, h2, h3])
      · refine Or.inr ⟨?_, by simp [h2], by simp [h3]⟩
        simpa using h1
  · rw [if_neg hc]
    right
    simp

/-! ## The claims -/

/-- C1: a complete, valid submission (five user fields non-empty, title
and add_time non-empty, parsable coordinates, no images) whose
connection acquisition, user creation and pass creation succeed yields
`(200, none, pass_id)` with a positive `pass_id`, and the new Pass row
carries status `"new"` and the submitted title and add_time. -/
theorem submit_valid_no_images_creates_pass (env : Env) (d : Submission) (s : DBState)
    (c : ConnState)
    (hconn : env.connectOk = true)
    (he : truthy d.user_email = true) (hp : truthy d.user_phone = true)
    (hf : truthy d.user_fam = true) (hn : truthy d.user_name = true)
    (ho : truthy d.user_otc = true)
    (hui : env.userInsertError = false) (hul : env.userLookupEmpty = false)
    (hlat : (parseCoord env d.latitude).isSome = true)
    (hlon : (parseCoord env d.longitude).isSome = true)
    (hhgt : (parseHeight env d.height).isSome = true)
    (ht : truthy d.title = true) (hat : truthy d.add_time = true)
    (hpf : env.passInsertFault = false)
    (himg : d.images = [])
    (hn1 : 1 ≤ s.nextUserId) (hn2 : 1 ≤ s.nextPassId)
    (hids : ∀ u ∈ s.users, 1 ≤ u.id) :
    (submit_pass_data env d s c).status = 200 ∧
    (submit_pass_data env d s c).message = none ∧
    ∃ pid, (submit_pass_data env d s c).id = some pid ∧ 0 < pid ∧
      ∃ row ∈ (submit_pass_data env d s c).db.passes,
        row.id = pid ∧ row.status = "new" ∧
        row.title = d.title.getD "" ∧ row.add_time = d.add_time.getD "" := by
  obtain ⟨uid, s1, lat, lon, hgt, hcu, huid, hpasses, himg1, hdl, hnext, hl, hlo, hhg, hsub⟩ :=
    submit_success_core env d s c hconn he hp hf hn ho hui hul hlat hlon hhgt ht hat hpf
      hn1 hn2 hids
  rw [hsub]
  refine ⟨rfl, rfl, s.nextPassId, rfl, by omega,
    ⟨s.nextPassId, d.beauty_title.getD "", d.title.getD "", d.other_titles.getD "",
     d.connect.getD "", d.add_time.getD "", uid, lat, lon, hgt, "new"⟩,
    ?_, rfl, rfl, rfl, rfl⟩
  dsimp only
  rw [himg, processImages, create_difficulty_level_passes]
  dsimp only
  exact List.mem_append_right _ (List.mem_singleton_self _)

/-- C1 witness. -/
theorem submit_valid_no_images_creates_pass_witness :
    (submit_pass_data envOk subOk dbEmpty connNone).status = 200 ∧
    (submit_pass_data envOk subOk dbEmpty connNone).message = none ∧
    ∃ pid, (submit_pass_data envOk subOk dbEmpty connNone).id = some pid ∧ 0 < pid ∧
      ∃ row ∈ (submit_pass_data envOk subOk dbEmpty connNone).db.passes,
        row.id = pid ∧ row.status = "new" ∧
        row.title = subOk.title.getD "" ∧ row.add_time = subOk.add_time.getD "" :=
  submit_valid_no_images_creates_pass envOk subOk dbEmpty connNone rfl (by decide)
    (by decide) (by decide) (by decide) (by decide) rfl rfl rfl rfl rfl (by decide)
    (by decide) rfl rfl (by decide) (by decide) (by decide)

/-- C2: every outcome triple has status exactly 200, 400 or 500; status
200 holds exactly when the id is set and the message is none; every 400
or 500 outcome has no id and a message; and the endpoint envelope
forwards the orchestrator triple unchanged. -/
theorem submit_status_envelope (env : Env) (d : Submission) (s : DBState) (c : ConnState) :
    ((submit_pass_data env d s c).status = 200 ∨
     (submit_pass_data env d s c).status = 400 ∨
     (submit_pass_data env d s c).status = 500) ∧
    ((submit_pass_data env d s c).status = 200 ↔
      ((submit_pass_data env d s c).id.isSome = true ∧
       (submit_pass_data env d s c).message = none)) ∧
    ((submit_pass_data env d s c).status ≠ 200 →
      ((submit_pass_data env d s c).id = none ∧
       (submit_pass_data env d s c).message.isSome = true)) ∧
    submit_data env d s c =
      ⟨(submit_pass_data env d s c).status, (submit_pass_data env d s c).message,
       (submit_pass_data env d s c).id⟩ := by
  rcases submit_triple_cases env d s c with ⟨h1, h2, h3⟩ | ⟨h1, h2, h3⟩
  · refine ⟨Or.inl h1, ⟨fun _ => ⟨h3, h2⟩, fun _ => h1⟩, fun hne => absurd h1 hne, rfl⟩
  · refine ⟨Or.inr h1, ⟨fun h200 => ?_, fun ⟨hid, hmsg⟩ => ?_⟩, fun _ => ⟨h3, h2⟩, rfl⟩
    · rcases h1 with h4 | h4 <;> omega
    · rw [h3] at hid
      cases hid

/-- C5: if any of the five user fields is missing or empty, the result
is the 400 "missing user fields" outcome, the database is untouched
(no User, Pass, DifficultyLevel or Image row written — `create_user`
is never reached), and the connection is released. -/
theorem missing_user_fields_400_no_writes (env : Env) (d : Submission) (s : DBState)
    (c : ConnState)
    (hconn : env.connectOk = true)
    (hmiss : truthy d.user_email = false ∨ truthy d.user_phone = false ∨
      truthy d.user_fam = false ∨ truthy d.user_name = false ∨
      truthy d.user_otc = false) :
    submit_pass_data env d s c =
      ⟨400, some "Не хватает полей в данных пользователя", none, s,
       ⟨some false, c.releases + 1⟩⟩ := by
  have hand : (truthy d.user_email && truthy d.user_phone && truthy d.user_fam &&
      truthy d.user_name && truthy d.user_otc) = false := by
    rcases hmiss with h | h | h | h | h <;> simp [h]
  rw [submit_pass_data_eq, if_pos hconn, submitBody, hand]
  rfl

/-- C5 witness. -/
theorem missing_user_fields_400_no_writes_witness :
    submit_pass_data envOk subNoEmail dbEmpty connNone =
      ⟨400, some "Не хватает полей в данных пользователя", none, dbEmpty,
       ⟨some false, connNone.releases + 1⟩⟩ :=
  missing_user_fields_400_no_writes envOk subNoEmail dbEmpty connNone rfl
    (Or.inl (by decide))

/-- C6: once the Pass row is created, the outcome is `(200, none,
pass_id)` for either value of the difficulty-level insert fault flag:
its failure causes no status change and no early return. -/
theorem difficulty_failure_not_surfaced (env : Env) (d : Submission) (s : DBState)
    (c : ConnState) (b : Bool)
    (hconn : env.connectOk = true)
    (he : truthy d.user_email = true) (hp : truthy d.user_phone = true)
    (hf : truthy d.user_fam = true) (hn : truthy d.user_name = true)
    (ho : truthy d.user_otc = true)
    (hui : env.userInsertError = false) (hul : env.userLookupEmpty = false)
    (hlat : (parseCoord env d.latitude).isSome = true)
    (hlon : (parseCoord env d.longitude).isSome = true)
    (hhgt : (parseHeight env d.height).isSome = true)
    (ht : truthy d.title = true) (hat : truthy d.add_time = true)
    (hpf : env.passInsertFault = false)
    (hn1 : 1 ≤ s.nextUserId) (hn2 : 1 ≤ s.nextPassId)
    (hids : ∀ u ∈ s.users, 1 ≤ u.id) :
    (submit_pass_data { env with dlInsertFault := b } d s c).status = 200 ∧
    (submit_pass_data { env with dlInsertFault := b } d s c).message = none ∧
    (submit_pass_data { env with dlInsertFault := b } d s c).id = some s.nextPassId := by
  obtain ⟨uid, s1, lat, lon, hgt, hcu, huid, hpasses, himg1, hdl, hnext, hl, hlo, hhg, hsub⟩ :=
    submit_success_core { env with dlInsertFault := b } d s c hconn he hp hf hn ho hui hul
      hlat hlon hhgt ht hat hpf hn1 hn2 hids
  rw [hsub]
  exact ⟨rfl, rfl, rfl⟩

/-- C6 witness (with the difficulty insert failing). -/
theorem difficulty_failure_not_surfaced_witness :
    (submit_pass_data { envOk with dlInsertFault := true } subOk dbEmpty connNone).status =
      200 ∧
    (submit_pass_data { envOk with dlInsertFault := true } subOk dbEmpty connNone).message =
      none ∧
    (submit_pass_data { envOk with dlInsertFault := true } subOk dbEmpty connNone).id =
      some dbEmpty.nextPassId :=
  difficulty_failure_not_surfaced envOk subOk dbEmpty connNone true rfl (by decide)
    (by decide) (by decide) (by decide) (by decide) rfl rfl rfl rfl rfl (by decide)
    (by decide) rfl (by decide) (by decide) (by decide)

/-- C7 counterexample: the connection-failure path is an early 500
return on which no release happens at all (`disconnect` is not called:
the `return` precedes the `try/finally`), refuting "released exactly
once on every path". -/
theorem connection_release_cex :
    (submit_pass_data envNoConn subOk dbEmpty connNone).status = 500 ∧
    (submit_pass_data envNoConn subOk dbEmpty connNone).conn.releases = 0 ∧
    (submit_pass_data envNoConn subOk dbEmpty connNone).conn.releases ≠
      connNone.releases + 1 :=
  ⟨rfl, rfl, by decide⟩

/-- C7 amended: on every path on which the connection is acquired
(`connect` succeeds) it is released exactly once as a final step and is
closed after the call; on the connection-failure path no release occurs
and the connection object is unchanged. -/
theorem connection_release_amended (env : Env) (d : Submission) (s : DBState)
    (c : ConnState) :
    (env.connectOk = true →
      (submit_pass_data env d s c).conn = ⟨some false, c.releases + 1⟩) ∧
    (env.connectOk = false → (submit_pass_data env d s c).conn = c) := by
  constructor
  · intro h
    rw [submit_pass_data_eq, if_pos h]
  · intro h
    rw [submit_pass_data_eq, if_neg (by simp [h])]

/-- C7 amended witness. -/
theorem connection_release_amended_witness :
    (submit_pass_data envOk subOk dbEmpty connNone).conn =
      ⟨some false, connNone.releases + 1⟩ ∧
    (submit_pass_data envNoConn subOk dbEmpty connNone).conn = connNone :=
  ⟨(connection_release_amended envOk subOk dbEmpty connNone).1 rfl,
   (connection_release_amended envNoConn subOk dbEmpty connNone).2 rfl⟩

/-- C10: when the user insert hits the uniqueness violation but the
follow-up lookup by email finds no row, `create_user` returns `None`
and `submit_pass_data` returns the 500 "error creating user" outcome. -/
theorem duplicate_email_lookup_empty_500 (env : Env) (d : Submission) (s : DBState)
    (c : ConnState)
    (hconn : env.connectOk = true)
    (he : truthy d.user_email = true) (hp : truthy d.user_phone = true)
    (hf : truthy d.user_fam = true) (hn : truthy d.user_name = true)
    (ho : truthy d.user_otc = true)
    (hdup : s.users.any (fun u => u.email == d.user_email.getD "") = true)
    (hle : env.userLookupEmpty = true) :
    create_user env s (d.user_email.getD "") (d.user_phone.getD "")
        (d.user_fam.getD "") (d.user_name.getD "") (d.user_otc.getD "") = (none, s) ∧
    submit_pass_data env d s c =
      ⟨500, some "Ошибка при создании пользователя", none, s,
       ⟨some false, c.releases + 1⟩⟩ := by
  have hcu : create_user env s (d.user_email.getD "") (d.user_phone.getD "")
      (d.user_fam.getD "") (d.user_name.getD "") (d.user_otc.getD "") = (none, s) := by
    rw [create_user, if_pos hdup, hle]
    rfl
  have hand : (truthy d.user_email && truthy d.user_phone && truthy d.user_fam &&
      truthy d.user_name && truthy d.user_otc) = true := by
    simp [he, hp, hf, hn, ho]
  refine ⟨hcu, ?_⟩
  rw [submit_pass_data_eq, if_pos hconn, submitBody, hand]
  norm_num
  rw [hcu]
  simp

/-- C10 witness. -/
theorem duplicate_email_lookup_empty_500_witness :
    create_user envLookupEmpty dbWithUser (subOk.user_email.getD "")
        (subOk.user_phone.getD "") (subOk.user_fam.getD "") (subOk.user_name.getD "")
        (subOk.user_otc.getD "") = (none, dbWithUser) ∧
    submit_pass_data envLookupEmpty subOk dbWithUser connNone =
      ⟨500, some "Ошибка при создании пользователя", none, dbWithUser,
       ⟨some false, connNone.releases + 1⟩⟩ :=
  duplicate_email_lookup_empty_500 envLookupEmpty subOk dbWithUser connNone rfl
    (by decide) (by decide) (by decide) (by decide) (by decide) (by decide) rfl

/-- C3: user creation is idempotent with respect to email: the id
returned is the existing row's id on a uniqueness collision (treated as
success) and a fresh id otherwise, the result is always set under a
fault-free oracle, and a second call with the same email returns the
identical result and leaves the state unchanged — no duplicate row. -/
theorem create_user_email_idempotent (env : Env) (s : DBState) (e p f n o : String)
    (hui : env.userInsertError = false) (hul : env.userLookupEmpty = false) :
    create_user env (create_user env s e p f n o).2 e p f n o =
      create_user env s e p f n o ∧
    (create_user env s e p f n o).1 =
      (if s.users.any (fun u => u.email == e) = true then
        (s.users.find? (fun u => u.email == e)).map UserRow.id
       else some s.nextUserId) ∧
    (create_user env s e p f n o).1.isSome = true := by
  by_cases hdup : s.users.any (fun u => u.email == e) = true
  · obtain ⟨u, hu, hpu⟩ := List.any_eq_true.mp hdup
    have hfs : (s.users.find? (fun u => u.email == e)).isSome = true :=
      List.find?_isSome.mpr ⟨u, hu, hpu⟩
    obtain ⟨w, hw⟩ := Option.isSome_iff_exists.mp hfs
    have hcu : create_user env s e p f n o = (some w.id, s) := by
      rw [create_user, if_pos hdup, hul, if_neg (by decide : ¬ false = true), hw]
    rw [hcu]
    exact ⟨hcu, by rw [if_pos hdup, hw]; rfl, rfl⟩
  · have hfalse : s.users.any (fun u => u.email == e) = false := by
      simpa using hdup
    have hcu : create_user env s e p f n o =
        (some s.nextUserId,
         { s with users := s.users ++ [⟨s.nextUserId, e, p, f, n, o⟩],
                  nextUserId := s.nextUserId + 1 }) := by
      rw [create_user, if_neg hdup, if_neg (by simp [hui])]
    have hany2 : ((s.users ++ [⟨s.nextUserId, e, p, f, n, o⟩] : List UserRow)).any
        (fun u => u.email == e) = true := by
      simp
    have hfind2 : ((s.users ++ [⟨s.nextUserId, e, p, f, n, o⟩] : List UserRow)).find?
        (fun u => u.email == e) = some ⟨s.nextUserId, e, p, f, n, o⟩ := by
      have h1 : s.users.find? (fun u => u.email == e) = none := by
        rw [List.find?_eq_none]
        intro x hx
        simpa using List.any_eq_false.mp hfalse x hx
      rw [List.find?_append, h1]
      simp
    have hsecond : create_user env
        { s with users := s.users ++ [⟨s.nextUserId, e, p, f, n, o⟩],
                 nextUserId := s.nextUserId + 1 } e p f n o =
        (some s.nextUserId,
         { s with users := s.users ++ [⟨s.nextUserId, e, p, f, n, o⟩],
                  nextUserId := s.nextUserId + 1 }) := by
      rw [create_user, if_pos hany2, hul, if_neg (by decide : ¬ false = true)]
      dsimp only
      rw [hfind2]
    rw [hcu]
    exact ⟨hsecond, by rw [if_neg hdup], rfl⟩

/-- C3 witness. -/
theorem create_user_email_idempotent_witness :
    create_user envOk (create_user envOk dbEmpty "a@b.c" "p" "f" "n" "o").2
        "a@b.c" "p" "f" "n" "o" =
      create_user envOk dbEmpty "a@b.c" "p" "f" "n" "o" ∧
    (create_user envOk dbEmpty "a@b.c" "p" "f" "n" "o").1 =
      (if dbEmpty.users.any (fun u => u.email == "a@b.c") = true then
        (dbEmpty.users.find? (fun u => u.email == "a@b.c")).map UserRow.id
       else some dbEmpty.nextUserId) ∧
    (create_user envOk dbEmpty "a@b.c" "p" "f" "n" "o").1.isSome = true :=
  create_user_email_idempotent envOk dbEmpty "a@b.c" "p" "f" "n" "o" rfl rfl

/-- C9: an image whose decoded payload is exactly `MAX_IMAGE_SIZE`
bytes is not skipped — the size check is strictly greater-than — and
the loop inserts its row like any other valid image. -/
theorem boundary_size_image_stored (env : Env) (pid i : Nat) (img : ImageData)
    (b : List Nat) (s : DBState)
    (hdec : b64decode (img.data.getD "") = some b)
    (hlen : b.length = MAX_IMAGE_SIZE)
    (hins : env.imageInsertFault i = false) :
    storeImage env pid i img = some ⟨pid, img.title.getD "", b⟩ ∧
    processImages env pid i [img] s =
      { s with images := s.images ++ [⟨pid, img.title.getD "", b⟩] } := by
  have hst : storeImage env pid i img = some ⟨pid, img.title.getD "", b⟩ := by
    simp only [storeImage, hdec]
    rw [if_neg (by omega), if_neg (by simp [hins])]
  exact ⟨hst, by simp [processImages, hst]⟩

/-- C9 witness: a canonically-encoded payload of exactly 5,242,880 zero
bytes is stored. -/
theorem boundary_size_image_stored_witness :
    storeImage envOk 1 0 imgBoundary = some ⟨1, "Седловина", bigBytes⟩ ∧
    processImages envOk 1 0 [imgBoundary] dbEmpty =
      { dbEmpty with images := dbEmpty.images ++ [⟨1, "Седловина", bigBytes⟩] } :=
  boundary_size_image_stored envOk 1 0 imgBoundary bigBytes dbEmpty
    (b64decode_b64encode bigBytes (fun x hx => by
      rw [bigBytes] at hx
      have := List.eq_of_mem_replicate hx
      omega))
    (by rw [bigBytes]; exact List.length_replicate _ _) rfl

/-- C8 counterexample: the image with submitted data `"AB=="` is stored
without any decode fault, but re-encoding its stored payload gives
`"AA=="`, not the submitted string — the non-strict decode is not
injective, so the round trip fails on non-canonical input. -/
theorem image_roundtrip_cex :
    storeImage envOk 1 0 ⟨some "фото", some "AB=="⟩ = some ⟨1, "фото", [0]⟩ ∧
    b64decode "AB==" = some [0] ∧
    b64encode [0] = "AA==" ∧ ("AA==" : String) ≠ "AB==" :=
  ⟨rfl, rfl, rfl, by decide⟩

/-- C8 amended: for every stored image whose submitted data is a
canonical base64 encoding (the encoding of some byte sequence),
base64-re-encoding the stored binary payload yields a string equal to
the submitted one: decoding an encoding is lossless. -/
theorem image_roundtrip_canonical (env : Env) (pid i : Nat) (img : ImageData)
    (row : ImageRow) (b : List Nat) (hb : ∀ x ∈ b, x < 256)
    (hcanon : img.data.getD "" = b64encode b)
    (hst : storeImage env pid i img = some row) :
    row.data = b ∧ b64encode row.data = img.data.getD "" := by
  rw [storeImage, hcanon, b64decode_b64encode b hb] at hst
  dsimp only at hst
  split at hst
  · cases hst
  · split at hst
    · cases hst
    · cases hst
      exact ⟨rfl, by rw [hcanon]⟩

/-- C8 amended witness. -/
theorem image_roundtrip_canonical_witness :
    (⟨1, "Седловина", [1, 2, 3]⟩ : ImageRow).data = [1, 2, 3] ∧
    b64encode (⟨1, "Седловина", [1, 2, 3]⟩ : ImageRow).data = imgGood.data.getD "" :=
  image_roundtrip_canonical envOk 1 0 imgGood ⟨1, "Седловина", [1, 2, 3]⟩ [1, 2, 3]
    (by decide) (by decide) rfl

/-- C4: any per-image fault — decode error, decoded payload over
`MAX_IMAGE_SIZE`, or a failed insert — skips exactly that image: the
outcome stays `(200, none, pass_id)`, the final images table is the
initial one plus the stored rows of the images before and after the
faulty index, and every other image that stores successfully has its
row present. -/
theorem image_faults_only_skip_that_image (env : Env) (d : Submission) (s : DBState)
    (c : ConnState)
    (hconn : env.connectOk = true)
    (he : truthy d.user_email = true) (hp : truthy d.user_phone = true)
    (hf : truthy d.user_fam = true) (hn : truthy d.user_name = true)
    (ho : truthy d.user_otc = true)
    (hui : env.userInsertError = false) (hul : env.userLookupEmpty = false)
    (hlat : (parseCoord env d.latitude).isSome = true)
    (hlon : (parseCoord env d.longitude).isSome = true)
    (hhgt : (parseHeight env d.height).isSome = true)
    (ht : truthy d.title = true) (hat : truthy d.add_time = true)
    (hpf : env.passInsertFault = false)
    (hn1 : 1 ≤ s.nextUserId) (hn2 : 1 ≤ s.nextPassId)
    (hids : ∀ u ∈ s.users, 1 ≤ u.id)
    (i : Nat) (hi : i < d.images.length)
    (hfault : b64decode ((d.images.get ⟨i, hi⟩).data.getD "") = none ∨
      (∃ bs, b64decode ((d.images.get ⟨i, hi⟩).data.getD "") = some bs ∧
        MAX_IMAGE_SIZE < bs.length) ∨
      env.imageInsertFault i = true) :
    (submit_pass_data env d s c).status = 200 ∧
    (submit_pass_data env d s c).message = none ∧
    (submit_pass_data env d s c).id = some s.nextPassId ∧
    storeImage env s.nextPassId i (d.images.get ⟨i, hi⟩) = none ∧
    (submit_pass_data env d s c).db.images =
      s.images ++ imagesStored env s.nextPassId 0 (d.images.take i) ++
        imagesStored env s.nextPassId (i + 1) (d.images.drop (i + 1)) ∧
    ∀ j (hj : j < d.images.length) (row : ImageRow), j ≠ i →
      storeImage env s.nextPassId j (d.images.get ⟨j, hj⟩) = some row →
      row ∈ (submit_pass_data env d s c).db.images := by
  obtain ⟨uid, s1, lat, lon, hgt, hcu, huid, hpasses, himg1, hdl, hnext, hl, hlo, hhg, hsub⟩ :=
    submit_success_core env d s c hconn he hp hf hn ho hui hul hlat hlon hhgt ht hat hpf
      hn1 hn2 hids
  have hstnone : storeImage env s.nextPassId i (d.images.get ⟨i, hi⟩) = none := by
    rcases hfault with hdec | ⟨bs, hbs, hlen⟩ | hins
    · simp only [storeImage, hdec]
    · simp only [storeImage, hbs]
      rw [if_pos hlen]
    · simp only [storeImage]
      rcases hdd : b64decode ((d.images.get ⟨i, hi⟩).data.getD "") with _ | bs
      · rfl
      · simp [hins]
  have hdbi : (submit_pass_data env d s c).db.images =
      s.images ++ imagesStored env s.nextPassId 0 d.images := by
    rw [hsub]
    dsimp only
    rw [processImages_eq]
    dsimp only
    rw [create_difficulty_level_images]
    dsimp only
    rw [himg1]
  have hsplit : imagesStored env s.nextPassId 0 d.images =
      imagesStored env s.nextPassId 0 (d.images.take i) ++
      imagesStored env s.nextPassId (i + 1) (d.images.drop (i + 1)) := by
    conv_lhs => rw [← List.take_append_drop i d.images]
    rw [imagesStored_append]
    have hlen : (d.images.take i).length = i := by
      simp only [List.length_take]
      omega
    rw [hlen, Nat.zero_add]
    congr 1
    rw [List.drop_eq_getElem_cons hi, imagesStored]
    have hst2 : storeImage env s.nextPassId i d.images[i] = none := by
      rw [← List.get_eq_getElem d.images ⟨i, hi⟩]
      exact hstnone
    rw [hst2]
    simp
  refine ⟨by rw [hsub], by rw [hsub], by rw [hsub], hstnone, by rw [hdbi, hsplit, List.append_assoc], ?_⟩
  intro j hj row _ hstj
  rw [hdbi]
  refine List.mem_append_right _
    (storeImage_mem_imagesStored env s.nextPassId d.images 0 j hj row ?_)
  rw [Nat.zero_add]
  exact hstj

/-- C4 witness: the middle of three images has a decode fault; the
other two are stored and the outcome is still 200. -/
theorem image_faults_only_skip_that_image_witness :
    (submit_pass_data envOk subWithImages dbEmpty connNone).status = 200 ∧
    (submit_pass_data envOk subWithImages dbEmpty connNone).message = none ∧
    (submit_pass_data envOk subWithImages dbEmpty connNone).id =
      some dbEmpty.nextPassId ∧
    storeImage envOk dbEmpty.nextPassId 1 (subWithImages.images.get ⟨1, by decide⟩) =
      none ∧
    (submit_pass_data envOk subWithImages dbEmpty connNone).db.images =
      dbEmpty.images ++
        imagesStored envOk dbEmpty.nextPassId 0 (subWithImages.images.take 1) ++
        imagesStored envOk dbEmpty.nextPassId (1 + 1) (subWithImages.images.drop (1 + 1)) ∧
    ∀ j (hj : j < subWithImages.images.length) (row : ImageRow), j ≠ 1 →
      storeImage envOk dbEmpty.nextPassId j (subWithImages.images.get ⟨j, hj⟩) =
        some row →
      row ∈ (submit_pass_data envOk subWithImages dbEmpty connNone).db.images :=
  image_faults_only_skip_that_image envOk subWithImages dbEmpty connNone rfl (by decide)
    (by decide) (by decide) (by decide) (by decide) rfl rfl rfl rfl rfl (by decide)
    (by decide) rfl (by decide) (by decide) (by decide) 1 (by decide)
    (Or.inl (by decide))

end MountainPasses
